import Mathlib

/-!
Verification of the WebWormhole signalling client (package wormhole, dial.go,
and the web client src/web/ww.js) against its specification.

The development shallowly embeds the Go handshake code: every function below is
a direct translation of the corresponding function in src/wormhole/dial_js.go or
src/web/ww.js, with I/O effects made explicit.  A call that reads from or writes
to the rendezvous websocket is modelled by an explicit environment field holding
that call's result, and the sequence of externally visible effects (writes,
closes, callback registration) is collected in a trace.

External libraries (nacl/secretbox, hkdf, base64, encoding/json, cpace) are not
part of this repository; they are modelled by executable idealisations that keep
exactly the properties the client code relies on (documented at each model).
-/

namespace WW

/-- Bytes are modelled as lists of naturals; the byte-valued operations the code
performs (xor, mod 256) keep concrete values in range where it matters. -/
abbrev Bytes := List Nat

/-! ## Protocol constants (src/wormhole/dial_js.go, const block) -/

/-- Protocol is the subprotocol identifier for the current signalling scheme. -/
def Protocol : String := "4"

/-- CloseNoSuchSlot is the WebSocket status returned if the slot is not valid. -/
def CloseNoSuchSlot : Nat := 4000

/-- CloseSlotTimedOut is the WebSocket status returned when the slot times out. -/
def CloseSlotTimedOut : Nat := 4001

/-- CloseNoMoreSlots is the WebSocket status returned when the signalling server
cannot allocate any new slots at the time. -/
def CloseNoMoreSlots : Nat := 4002

/-- CloseWrongProto is the WebSocket status returned when the signalling server
runs a different version of the signalling protocol. -/
def CloseWrongProto : Nat := 4003

/-- ClosePeerHungUp is the WebSocket status returned when the peer has closed
its connection. -/
def ClosePeerHungUp : Nat := 4004

/-- CloseBadKey is the WebSocket status returned when the peer has closed its
connection because the key it derived is bad. -/
def CloseBadKey : Nat := 4005

/-- StatusNormalClosure is the ordinary WebSocket close status (1000), used by
Dial and DialDataChannel on both the "done" and the "timed out" paths. -/
def StatusNormalClosure : Nat := 1000

/-! ## Errors (src/wormhole/dial_js.go, var block and library error shapes) -/

/-- GoErr models the error values the client code distinguishes: the package's
sentinel errors, websocket close errors (carrying their status code, as
recovered by websocket.CloseStatus), and the generic library errors. -/
inductive GoErr where
  | badVersion
  | badKey
  | noSuchSlot
  | timedOut
  | wsClose (status : Nat)
  | base64Corrupt
  | jsonErr
  | ioErr (msg : String)
deriving DecidableEq

/-- closeStatus models websocket.CloseStatus: the status code of a websocket
close error, and -1 for every other error. -/
def closeStatus : GoErr → Int
  | .wsClose s => (s : Int)
  | _ => -1

/-! ## Model of nacl/secretbox (external library golang.org/x/crypto)

An executable idealisation: sealing prepends a 16-byte authenticator tag to the
xor-stream encryption of the message; opening checks the length and the tag and
inverts the stream.  The two properties the client relies on are kept exactly:
open inverts seal under the same key and nonce, and open fails (returns none)
whenever the tag check fails, in particular on any box shorter than the 16-byte
overhead. -/

/-- mix is the accumulator step of the idealised keyed hash. -/
def mix (a b : Nat) : Nat := (a * 131 + b + 17) % 4294967296

/-- macTag is the idealised 16-byte authenticator over key, nonce and
ciphertext. -/
def macTag (key nonce ct : Bytes) : Bytes :=
  (List.range 16).map (fun i => ((key ++ nonce ++ ct).foldl mix (ct.length + i + 1)) % 256)

/-- ksByte is byte i of the idealised keystream for a key and nonce. -/
def ksByte (key nonce : Bytes) (i : Nat) : Nat :=
  ((key ++ nonce).foldl mix (i + 3)) % 256

/-- xorStream xors a message with the keystream starting at position i; applying
it twice at the same position restores the message. -/
def xorStream (key nonce : Bytes) : Nat → Bytes → Bytes
  | _, [] => []
  | i, b :: bs => (b ^^^ ksByte key nonce i) :: xorStream key nonce (i + 1) bs




/-- secretboxSeal models secretbox.Seal (with an empty out prefix): the
authenticator tag followed by the encrypted message. -/
def secretboxSeal (key nonce m : Bytes) : Bytes :=
  macTag key nonce (xorStream key nonce 0 m) ++ xorStream key nonce 0 m

/-- secretboxOpen models secretbox.Open: it fails on any box shorter than the
16-byte overhead or whose tag does not verify, and otherwise decrypts. -/
def secretboxOpen (key nonce box : Bytes) : Option Bytes :=
  if box.length < 16 then none
  else if box.take 16 = macTag key nonce (box.drop 16) then
    some (xorStream key nonce 0 (box.drop 16))
  else none



/-! ## Model of base64url text frames (external library encoding/base64)

A websocket text frame is modelled by its base64url content: a well-formed
frame is represented by the byte list it decodes to, a malformed one by a
dedicated constructor.  The properties the client relies on are that
DecodeString inverts EncodeToString and errors exactly on malformed text. -/

/-- Frame is a websocket text frame, seen through base64url decoding. -/
inductive Frame where
  | b64 (bytes : Bytes)
  | malformed
deriving DecidableEq

/-- encodeBase64 models base64.URLEncoding.EncodeToString. -/
def encodeBase64 (p : Bytes) : Frame := .b64 p

/-- decodeBase64 models base64.URLEncoding.DecodeString. -/
def decodeBase64 : Frame → Except GoErr Bytes
  | .b64 p => .ok p
  | .malformed => .error .base64Corrupt

/-! ## Model of the JSON payloads (external library encoding/json)

The sealed payloads exchanged by the handshake are session descriptions
(webrtc.SessionDescription: type and sdp) and ICE candidates
(webrtc.ICECandidateInit: candidate, sdpMid, sdpMLineIndex).  Marshalling is
modelled by an injective executable encoding with an executable inverse. -/

/-- Payload is a JSON-encodable handshake payload. -/
inductive Payload where
  | desc (typ sdp : String)
  | cand (candidate sdpMid : String) (mlineindex : Nat)
deriving DecidableEq

/-- encStr length-prefixes the code points of a string. -/
def encStr (s : String) : Bytes := s.length :: s.data.map Char.toNat

/-- decStr reads back one length-prefixed string, returning it with the rest of
the input. -/
def decStr : Bytes → Option (String × Bytes)
  | [] => none
  | n :: rest =>
    if n ≤ rest.length then
      some (String.mk ((rest.take n).map Char.ofNat), rest.drop n)
    else none



/-- jsonMarshal models json.Marshal on handshake payloads. -/
def jsonMarshal : Payload → Bytes
  | .desc t s => 0 :: (encStr t ++ encStr s)
  | .cand c m i => 1 :: (encStr c ++ (encStr m ++ [i]))

/-- jsonUnmarshal models json.Unmarshal on handshake payloads; it errors on
bytes that are not the marshalling of any payload. -/
def jsonUnmarshal (b : Bytes) : Except GoErr Payload :=
  match b with
  | 0 :: rest =>
    match decStr rest with
    | some (t, rest1) =>
      match decStr rest1 with
      | some (s, []) => .ok (.desc t s)
      | _ => .error .jsonErr
    | none => .error .jsonErr
  | 1 :: rest =>
    match decStr rest with
    | some (c, rest1) =>
      match decStr rest1 with
      | some (m, [i]) => .ok (.cand c m i)
      | _ => .error .jsonErr
    | none => .error .jsonErr
  | _ => .error .jsonErr


/-! ## readEncJSON and writeEncJSON (src/wormhole/dial_js.go)

readEncJSON's websocket read is an explicit argument (the frame the rendezvous
server delivered, or the read error).  The Go code decodes the frame, then
evaluates encrypted[:24] and encrypted[24:]; when the decoded slice is shorter
than 24 bytes one of those two slice expressions is out of range (the first
when the capacity of the decode buffer is below 24, otherwise the second, whose
upper bound defaults to the length), so the function panics. -/

/-- ReadOutcome is the result of a readEncJSON call: a decoded value, an error
returned to the caller, or a runtime panic. -/
inductive ReadOutcome (α : Type) where
  | ok (v : α)
  | err (e : GoErr)
  | panicked
deriving DecidableEq

/-- readEncJSON reads one sealed frame: base64url-decode, split off the 24-byte
nonce, secretbox-open under key, and JSON-decode the plaintext.  Translated
from readEncJSON in src/wormhole/dial_js.go. -/
def readEncJSON (key : Bytes) (incoming : Except GoErr Frame) : ReadOutcome Payload :=
  match incoming with
  | .error e => .err e
  | .ok frame =>
    match decodeBase64 frame with
    | .error e => .err e
    | .ok encrypted =>
      if encrypted.length < 24 then .panicked
      else
        match secretboxOpen key (encrypted.take 24) (encrypted.drop 24) with
        | none => .err .badKey
        | some jsonmsg =>
          match jsonUnmarshal jsonmsg with
          | .error e => .err e
          | .ok v => .ok v

/-- writeEncJSON seals one payload: marshal to JSON, seal under key with the
given fresh 24-byte nonce (secretbox.Seal is called with the nonce as the out
prefix, so the nonce is prepended), and base64url-encode.  Translated from
writeEncJSON in src/wormhole/dial_js.go; the random nonce drawn from
crypto/rand is an explicit argument. -/
def writeEncJSON (key nonce : Bytes) (v : Payload) : Frame :=
  encodeBase64 (nonce ++ secretboxSeal key nonce (jsonMarshal v))


/-! ## Model of HKDF-SHA256 (external library golang.org/x/crypto/hkdf)

The client calls io.ReadFull(hkdf.New(sha256.New, mk, nil, nil), c.key[:]) with
a 32-byte destination; hkdf.New(h, secret, nil, nil) is HKDF with empty salt and
empty info.  The model is any fixed executable byte stream determined by the
master secret, the salt and the info; the property the code relies on is that
the stream is a deterministic function of those three inputs. -/

/-- hkdfStream is byte i of the idealised HKDF-SHA256 output stream. -/
def hkdfStream (mk salt info : Bytes) (i : Nat) : Nat :=
  ((salt ++ mk ++ info).foldl mix (i + 7)) % 256

/-- hkdfBytes is the first n bytes of the idealised HKDF-SHA256 output, the
result of io.ReadFull on the hkdf reader with an n-byte destination. -/
def hkdfBytes (mk salt info : Bytes) (n : Nat) : Bytes :=
  (List.range n).map (hkdfStream mk salt info)


/-! ## Handshake sides (src/wormhole/dial_js.go, const block after Dial) -/

/-- sideNone is the side value after finishNew has consumed the wormhole. -/
def sideNone : Nat := 0

/-- sideNew is the side value set by New. -/
def sideNew : Nat := 1

/-- sideJoin is the side value set by Join. -/
def sideJoin : Nat := 2

/-! ## The handshake state machines finishNew and finishJoin

Each function of the Go code is embedded as a function from an environment
(record of the results of its external calls, in program order) to the
externally visible trace of effects, the derived session key, the side value it
stores, and its return value.  Panics (from the short-frame slice expressions of
readEncJSON) are a distinguished result carrying the Go runtime message. -/

/-- Action is one externally visible effect of the handshake task. -/
inductive Action where
  | readPake
  | writeB64 (p : Bytes)
  | keySet
  | registerCandidateCallback
  | writeSealed (f : Frame)
  | readSealed
  | wsClose (status : Nat) (reason : String)
  | spawnRemoteCandidates
deriving DecidableEq

/-- FinishResult is the return value of a handshake function: nil, a Go error,
or a runtime panic with its message. -/
inductive FinishResult where
  | ok
  | err (e : GoErr)
  | panicked (msg : String)
deriving DecidableEq

/-- sliceMsg is the Go runtime panic message raised by the out-of-range slice
expressions in readEncJSON. -/
def sliceMsg : String := "slice bounds out of range"

/-- dialTwiceMsg is the panic message of the Dial/DialDataChannel reuse guard. -/
def dialTwiceMsg : String := "called dial twice on wormhole"

/-- FinishOut is what a run of finishNew or finishJoin produces. -/
structure FinishOut where
  trace : List Action
  key : Option Bytes
  sideSet : Option Nat
  result : FinishResult
deriving DecidableEq

/-- NewEnv is the environment of one finishNew run: the results of its external
calls in program order.  cpace.Exchange (external library filippo.io/cpace) is
modelled by its result, the reply message and the master key. -/
structure NewEnv where
  msgA : Except GoErr Bytes
  exchange : Except GoErr (Bytes × Bytes)
  writeMsgBErr : Option GoErr
  offer : Except GoErr Payload
  offerNonce : Bytes
  writeOfferErr : Option GoErr
  answerFrame : Except GoErr Frame
  setLocalErr : Option GoErr
  setRemoteErr : Option GoErr

/-- finishNew is the initiator's half of the handshake, translated from
finishNew in src/wormhole/dial_js.go: set side to sideNone, read B's PAKE
message, run cpace.Exchange, derive the key by HKDF with empty salt and info,
send the PAKE reply, register the local-candidate callback, create and seal the
offer, read the sealed answer (treating a close with status CloseBadKey as
ErrBadKey), set the descriptions and spawn the remote-candidate reader.
The io.ReadFull error branch of the HKDF read cannot fire for a 32-byte
destination and has no separate environment field. -/
def finishNew (env : NewEnv) : FinishOut :=
  match env.msgA with
  | .error e => ⟨[.readPake], none, some sideNone, .err e⟩
  | .ok _ =>
  match env.exchange with
  | .error e => ⟨[.readPake], none, some sideNone, .err e⟩
  | .ok (msgB, mk) =>
  let key := hkdfBytes mk [] [] 32
  match env.writeMsgBErr with
  | some e => ⟨[.readPake, .keySet, .writeB64 msgB], some key, some sideNone, .err e⟩
  | none =>
  match env.offer with
  | .error e =>
    ⟨[.readPake, .keySet, .writeB64 msgB, .registerCandidateCallback], some key,
      some sideNone, .err e⟩
  | .ok offer =>
  let offerFrame := writeEncJSON key env.offerNonce offer
  match env.writeOfferErr with
  | some e =>
    ⟨[.readPake, .keySet, .writeB64 msgB, .registerCandidateCallback,
      .writeSealed offerFrame], some key, some sideNone, .err e⟩
  | none =>
  match readEncJSON key env.answerFrame with
  | .panicked =>
    ⟨[.readPake, .keySet, .writeB64 msgB, .registerCandidateCallback,
      .writeSealed offerFrame, .readSealed], some key, some sideNone, .panicked sliceMsg⟩
  | .err e =>
    if closeStatus e = CloseBadKey then
      ⟨[.readPake, .keySet, .writeB64 msgB, .registerCandidateCallback,
        .writeSealed offerFrame, .readSealed], some key, some sideNone, .err .badKey⟩
    else
      ⟨[.readPake, .keySet, .writeB64 msgB, .registerCandidateCallback,
        .writeSealed offerFrame, .readSealed], some key, some sideNone, .err e⟩
  | .ok _ =>
  match env.setLocalErr with
  | some e =>
    ⟨[.readPake, .keySet, .writeB64 msgB, .registerCandidateCallback,
      .writeSealed offerFrame, .readSealed], some key, some sideNone, .err e⟩
  | none =>
  match env.setRemoteErr with
  | some e =>
    ⟨[.readPake, .keySet, .writeB64 msgB, .registerCandidateCallback,
      .writeSealed offerFrame, .readSealed], some key, some sideNone, .err e⟩
  | none =>
    ⟨[.readPake, .keySet, .writeB64 msgB, .registerCandidateCallback,
      .writeSealed offerFrame, .readSealed, .spawnRemoteCandidates], some key,
      some sideNone, .ok⟩

/-- JoinEnv is the environment of one finishJoin run.  cpace.Start is modelled
by its first message (the continuation is consumed only by Finish, modelled by
its master-key result). -/
structure JoinEnv where
  start : Except GoErr Bytes
  writeMsgAErr : Option GoErr
  msgB : Except GoErr Bytes
  finish : Except GoErr Bytes
  offerFrame : Except GoErr Frame
  answer : Except GoErr Payload
  answerNonce : Bytes
  writeAnswerErr : Option GoErr
  setRemoteErr : Option GoErr
  setLocalErr : Option GoErr

/-- finishJoin is the joiner's half of the handshake, translated from
finishJoin in src/wormhole/dial_js.go: run cpace.Start, send the first PAKE
message, read the reply, run Finish, derive the key by HKDF with empty salt and
info, register the local-candidate callback, read the sealed offer — when that
read returns exactly ErrBadKey, close the socket with CloseBadKey and return
the error — then set descriptions, seal and send the answer, and spawn the
remote-candidate reader.  finishJoin never writes the side field. -/
def finishJoin (env : JoinEnv) : FinishOut :=
  match env.start with
  | .error e => ⟨[], none, none, .err e⟩
  | .ok msgA =>
  match env.writeMsgAErr with
  | some e => ⟨[.writeB64 msgA], none, none, .err e⟩
  | none =>
  match env.msgB with
  | .error e => ⟨[.writeB64 msgA, .readPake], none, none, .err e⟩
  | .ok _ =>
  match env.finish with
  | .error e => ⟨[.writeB64 msgA, .readPake], none, none, .err e⟩
  | .ok mk =>
  let key := hkdfBytes mk [] [] 32
  match readEncJSON key env.offerFrame with
  | .panicked =>
    ⟨[.writeB64 msgA, .readPake, .keySet, .registerCandidateCallback, .readSealed],
      some key, none, .panicked sliceMsg⟩
  | .err e =>
    if e = .badKey then
      ⟨[.writeB64 msgA, .readPake, .keySet, .registerCandidateCallback, .readSealed,
        .wsClose CloseBadKey "bad key"], some key, none, .err .badKey⟩
    else
      ⟨[.writeB64 msgA, .readPake, .keySet, .registerCandidateCallback, .readSealed],
        some key, none, .err e⟩
  | .ok _ =>
  match env.setRemoteErr with
  | some e =>
    ⟨[.writeB64 msgA, .readPake, .keySet, .registerCandidateCallback, .readSealed],
      some key, none, .err e⟩
  | none =>
  match env.answer with
  | .error e =>
    ⟨[.writeB64 msgA, .readPake, .keySet, .registerCandidateCallback, .readSealed],
      some key, none, .err e⟩
  | .ok answer =>
  let answerFrame := writeEncJSON key env.answerNonce answer
  match env.writeAnswerErr with
  | some e =>
    ⟨[.writeB64 msgA, .readPake, .keySet, .registerCandidateCallback, .readSealed,
      .writeSealed answerFrame], some key, none, .err e⟩
  | none =>
  match env.setLocalErr with
  | some e =>
    ⟨[.writeB64 msgA, .readPake, .keySet, .registerCandidateCallback, .readSealed,
      .writeSealed answerFrame], some key, none, .err e⟩
  | none =>
    ⟨[.writeB64 msgA, .readPake, .keySet, .registerCandidateCallback, .readSealed,
      .writeSealed answerFrame, .spawnRemoteCandidates], some key, none, .ok⟩

/-! ## unwrapWebsocketErr and the Dial entry points -/

/-- unwrapWebsocketErr translates the websocket close status of an error into
the package's sentinel errors, translated from unwrapWebsocketErr in
src/wormhole/dial_js.go.  Its switch has cases only for CloseWrongProto,
CloseNoSuchSlot and CloseSlotTimedOut; every other error passes through. -/
def unwrapWebsocketErr (err : GoErr) : GoErr :=
  if closeStatus err = CloseWrongProto then .badVersion
  else if closeStatus err = CloseNoSuchSlot then .noSuchSlot
  else if closeStatus err = CloseSlotTimedOut then .timedOut
  else err

/-- dialTimeoutSeconds is the 30-second post-handshake deadline shared by Dial
and DialDataChannel (time.After(30 * time.Second)). -/
def dialTimeoutSeconds : Nat := 30

/-- selectTimedOut models the select between the completion channel and
time.After: the timer branch is taken iff completion never happens or happens
no earlier than the deadline. -/
def selectTimedOut (doneAt : Option Nat) : Bool :=
  match doneAt with
  | none => true
  | some t => dialTimeoutSeconds ≤ t

/-- DialOut is what a run of Dial or DialDataChannel produces. -/
structure DialOut where
  trace : List Action
  result : FinishResult
  sideAfter : Nat
deriving DecidableEq

/-- DialEnv is the environment of a Dial call: the environment for whichever
finish function its side selects, and the time (in seconds from the start of
the wait) at which both candidate channels close, if ever. -/
structure DialEnv where
  newEnv : NewEnv
  joinEnv : JoinEnv
  doneAt : Option Nat

/-- dialFinish is the switch on c.side shared by Dial and DialDataChannel; on a
side that matches no case the error stays nil. -/
def dialFinish (side : Nat) (env : DialEnv) : FinishOut :=
  if side = sideNew then finishNew env.newEnv
  else if side = sideJoin then finishJoin env.joinEnv
  else ⟨[], none, none, .ok⟩

/-- Dial finishes the signalling handshake, translated from Wormhole.Dial in
src/wormhole/dial_js.go: panic if side is sideNone, run the side's finish
function, then wait for the candidate channels against the 30-second deadline,
closing the websocket with the normal-closure status either way. -/
def Dial (side : Nat) (env : DialEnv) : DialOut :=
  if side = sideNone then ⟨[], .panicked dialTwiceMsg, side⟩
  else
    let fin := dialFinish side env
    let sideAfter := (fin.sideSet).getD side
    match fin.result with
    | .err e => ⟨fin.trace, .err e, sideAfter⟩
    | .panicked m => ⟨fin.trace, .panicked m, sideAfter⟩
    | .ok =>
      if selectTimedOut env.doneAt then
        ⟨fin.trace ++ [.wsClose StatusNormalClosure "timed out"], .err .timedOut, sideAfter⟩
      else
        ⟨fin.trace ++ [.wsClose StatusNormalClosure "done"], .ok, sideAfter⟩

/-- DDCEnv is the environment of a DialDataChannel call: the results of the
peer-connection and datachannel setup, the finish environment, and the time at
which the datachannel's OnOpen callback delivers on the opened channel with the
Detach result. -/
structure DDCEnv where
  pcErr : Option GoErr
  createDCErr : Option GoErr
  newEnv : NewEnv
  joinEnv : JoinEnv
  openedAt : Option Nat
  detachErr : Option GoErr

/-- DialDataChannel finishes the handshake with the default PeerConnection and
a prenegotiated datachannel, translated from Wormhole.DialDataChannel in
src/wormhole/dial_js.go: panic if side is sideNone, set up the peer connection
and datachannel, run the side's finish function, then select the opened channel
against the 30-second deadline; on open it returns the Detach error if any,
otherwise closes the websocket with the normal-closure status and "done"; on
timeout it closes with the normal-closure status and "timed out" and returns
ErrTimedOut. -/
def DialDataChannel (side : Nat) (env : DDCEnv) : DialOut :=
  if side = sideNone then ⟨[], .panicked dialTwiceMsg, side⟩
  else
    match env.pcErr with
    | some e => ⟨[], .err e, side⟩
    | none =>
    match env.createDCErr with
    | some e => ⟨[], .err e, side⟩
    | none =>
      let fin := dialFinish side ⟨env.newEnv, env.joinEnv, none⟩
      let sideAfter := (fin.sideSet).getD side
      match fin.result with
      | .err e => ⟨fin.trace, .err e, sideAfter⟩
      | .panicked m => ⟨fin.trace, .panicked m, sideAfter⟩
      | .ok =>
        if selectTimedOut env.openedAt then
          ⟨fin.trace ++ [.wsClose StatusNormalClosure "timed out"], .err .timedOut, sideAfter⟩
        else
          match env.detachErr with
          | some e => ⟨fin.trace, .err e, sideAfter⟩
          | none => ⟨fin.trace ++ [.wsClose StatusNormalClosure "done"], .ok, sideAfter⟩

/-! ## Candidate trickle (src/wormhole/dial_js.go) -/

/-- Cand is a local ICE candidate as delivered by the peer connection; ToJSON
and JSON.stringify produce its candidate payload. -/
structure Cand where
  candidate : String
  sdpMid : String
  mlineindex : Nat
deriving DecidableEq

/-- candPayload is candidate.ToJSON() as a sealed payload. -/
def candPayload (c : Cand) : Payload := .cand c.candidate c.sdpMid c.mlineindex

/-- sentinelPayload is webrtc.ICECandidateInit{}, the zero value written as the
end-of-candidates sentinel: every field empty. -/
def sentinelPayload : Payload := .cand "" "" 0

/-- CandAction is one writeEncJSON call made by handleLocalCandidates,
identified by the payload it seals. -/
inductive CandAction where
  | sendCand (p : Payload)
  | sendSentinel
deriving DecidableEq

/-- handleLocalCandidate is one invocation of the OnICECandidate callback,
translated from handleLocalCandidates in src/wormhole/dial_js.go: a nil
candidate writes the empty sentinel unless the localCandidate channel is
already closed (the select default), and then closes it; a non-nil candidate is
sealed and written.  The boolean state is whether the channel is closed. -/
def handleLocalCandidate (closed : Bool) (cand : Option Cand) : Bool × List CandAction :=
  match cand with
  | none => if closed then (closed, []) else (true, [.sendSentinel])
  | some c => (closed, [.sendCand (candPayload c)])

/-- handleLocalCandidates folds the callback over a whole sequence of gatherer
events, collecting every write it performs. -/
def handleLocalCandidates : Bool → List (Option Cand) → Bool × List CandAction
  | closed, [] => (closed, [])
  | closed, c :: cs =>
    let out := handleLocalCandidate closed c
    let rest := handleLocalCandidates out.1 cs
    (rest.1, out.2 ++ rest.2)

/-- isSentinel holds of a sentinel write. -/
def isSentinel : CandAction → Bool
  | .sendSentinel => true
  | _ => false

/-- sentinelCount counts the sentinel writes in a callback trace. -/
def sentinelCount (as : List CandAction) : Nat :=
  (as.filter isSentinel).length

/-- candidateField is the Candidate field json.Unmarshal leaves in a
webrtc.ICECandidateInit: the candidate string of a candidate payload, and the
zero value (empty) when the JSON object has no candidate field. -/
def candidateField : Payload → String
  | .cand c _ _ => c
  | .desc _ _ => ""

/-- RemoteStop is why the remote-candidate loop stopped. -/
inductive RemoteStop where
  | readErr (e : GoErr)
  | sentinel
  | panicked
  | streamEnded
deriving DecidableEq

/-- handleRemoteCandidates consumes the stream of incoming frames, translated
from handleRemoteCandidates in src/wormhole/dial_js.go: each iteration reads
one sealed candidate; a read error ends the loop (logged, not surfaced), an
empty candidate field ends the loop cleanly, and otherwise the candidate is
added to the peer connection (AddICECandidate errors are only logged) and the
loop continues.  The function returns the added candidates and why it
stopped; streamEnded marks exhaustion of the modelled input stream. -/
def handleRemoteCandidates (key : Bytes) : List (Except GoErr Frame) → List Payload × RemoteStop
  | [] => ([], .streamEnded)
  | f :: fs =>
    match readEncJSON key f with
    | .panicked => ([], .panicked)
    | .err e => ([], .readErr e)
    | .ok cand =>
      if candidateField cand = "" then ([], .sentinel)
      else
        let rest := handleRemoteCandidates key fs
        (cand :: rest.1, rest.2)

/-! ## The web client (src/web/ww.js)

The JS client's handlers are embedded as pure functions of the values the
browser hands them.  webwormhole.seal and webwormhole.open are the same WASM
seal and open as the Go package. -/

/-- closeWebRTCSuccess is the close code for success with undetermined
candidate type (ww.js WormholeErrorCodes). -/
def closeWebRTCSuccess : Nat := 4006

/-- closeWebRTCSuccessDirect is the close code for success over a direct
(host, srflx or prflx) candidate pair. -/
def closeWebRTCSuccessDirect : Nat := 4007

/-- closeWebRTCSuccessRelay is the close code for success over a relay
candidate pair. -/
def closeWebRTCSuccessRelay : Nat := 4008

/-- closeWebRTCFailed is the close code sent when the peer connection
reports failure. -/
def closeWebRTCFailed : Nat := 4009

/-- JsAction is one externally visible effect of a ww.js handler. -/
inductive JsAction where
  | jsSend (f : Frame)
  | jsClose (code : Nat)
  | jsFail (msg : String)
deriving DecidableEq

/-- byeBytes is the plaintext "bye" the JS client seals as its farewell. -/
def byeBytes : Bytes := "bye".data.map Char.toNat

/-- jsSeal models webwormhole.seal on raw plaintext bytes (the WASM wrapper of
the Go sealing path: random 24-byte nonce prepended to the secretbox, then
base64url). -/
def jsSeal (key nonce plaintext : Bytes) : Frame :=
  encodeBase64 (nonce ++ secretboxSeal key nonce plaintext)

/-- jsOnMessageWaitOffer is the wait_for_webtc_offer state of
Wormhole.onmessage (src/web/ww.js), as a function of the result of
webwormhole.open plus JSON.parse on the incoming frame (none models a failed
open): on failure it reports "bad key", sends a sealed "bye" and closes with
closeBadKey; on a non-offer message it fails; on an offer it proceeds (the
deferred answer computation runs on promise2 and is outside these immediate
actions).  The wait_for_webtc_answer and wait_for_candidates states share the
same failed-open handling. -/
def jsOnMessageWaitOffer (key nonce : Bytes) (openRes : Option Payload) : List JsAction :=
  match openRes with
  | none => [.jsFail "bad key", .jsSend (jsSeal key nonce byeBytes), .jsClose CloseBadKey]
  | some p =>
    match p with
    | .desc t _ => if t = "offer" then [] else [.jsFail "unexpected message"]
    | _ => [.jsFail "unexpected message"]

/-- jsOnIceCandidate is the onicecandidate handler installed by
Wormhole.makePeerConnection (src/web/ww.js): a null or empty candidate sends
nothing, and a real candidate is sealed and sent only when this.key is
already present. -/
def jsOnIceCandidate (key : Option Bytes) (nonce : Bytes) (cand : Option Cand) : List JsAction :=
  match cand with
  | none => []
  | some c =>
    if c.candidate = "" then []
    else
      match key with
      | some k => [.jsSend (jsSeal k nonce (jsonMarshal (candPayload c)))]
      | none => []

/-- jsOnClose is Wormhole.onclose (src/web/ww.js) as a function of the close
event's code and reason, returning the failure message it reports, or none when
the close is ignored (codes 4004 and 1001). -/
def jsOnClose (code : Nat) (reason : String) : Option String :=
  if code = 4000 then some "no such slot"
  else if code = 4001 then some "timed out"
  else if code = 4002 then some "could not get slot"
  else if code = 4003 then some "wrong protocol version, must update"
  else if code = 4004 ∨ code = 1001 then none
  else some ("websocket session closed: " ++ reason ++ " (" ++ toString code ++ ")")

/-- jsCloseCode is Wormhole.close (src/web/ww.js) as a function of the peer
connection's iceConnectionState and the selected pair's local candidate type,
returning the close code it sends on the signalling socket, or none when the
state is neither connected nor failed (in which case no close is issued). -/
def jsCloseCode (iceConnectionState connType : String) : Option Nat :=
  if iceConnectionState = "connected" then
    if connType = "host" ∨ connType = "srflx" ∨ connType = "prflx" then
      some closeWebRTCSuccessDirect
    else if connType = "relay" then some closeWebRTCSuccessRelay
    else some closeWebRTCSuccess
  else if iceConnectionState = "failed" then some closeWebRTCFailed
  else none

/-! ## Trace predicates and concrete environments used by the theorems -/

/-- isWriteSealed holds of the trace actions that write a sealed frame. -/
def isWriteSealed : Action → Bool
  | .writeSealed _ => true
  | _ => false

/-- usesSealed holds of the trace actions that dispatch or process sealed
frames, including registering the local-candidate callback (which seals every
candidate it sends). -/
def usesSealed : Action → Bool
  | .writeSealed _ => true
  | .readSealed => true
  | .registerCandidateCallback => true
  | _ => false

/-- keyBeforeSealed holds of a trace in which no sealed-frame action occurs
before the key is set. -/
def keyBeforeSealed : List Action → Bool
  | [] => true
  | .keySet :: _ => true
  | a :: rest => !usesSealed a && keyBeforeSealed rest

/-- isWsClose holds of the trace actions that close the websocket. -/
def isWsClose : Action → Bool
  | .wsClose _ _ => true
  | _ => false

/-- keyOk is the session key both concrete environments below derive
(master key [5], empty salt and info). -/
def keyOk : Bytes := hkdfBytes [5] [] [] 32

/-- newEnvOk is a fully successful finishNew environment: the sealed answer it
reads really is a seal under the derived key. -/
def newEnvOk : NewEnv :=
  { msgA := .ok [1], exchange := .ok ([2], [5]), writeMsgBErr := none,
    offer := .ok (.desc "offer" "o"), offerNonce := List.replicate 24 4,
    writeOfferErr := none,
    answerFrame := .ok (writeEncJSON keyOk (List.replicate 24 3) (.desc "answer" "x")),
    setLocalErr := none, setRemoteErr := none }

/-- joinEnvOk is a fully successful finishJoin environment deriving the same
key as newEnvOk. -/
def joinEnvOk : JoinEnv :=
  { start := .ok [1], writeMsgAErr := none, msgB := .ok [2], finish := .ok [5],
    offerFrame := .ok (writeEncJSON keyOk (List.replicate 24 4) (.desc "offer" "o")),
    answer := .ok (.desc "answer" "x"), answerNonce := List.replicate 24 3,
    writeAnswerErr := none, setRemoteErr := none, setLocalErr := none }

/-- joinEnvBadKey is a finishJoin environment whose sealed offer fails to open:
the 24-byte frame leaves an empty box, which secretbox.Open rejects. -/
def joinEnvBadKey : JoinEnv :=
  { start := .ok [10], writeMsgAErr := none, msgB := .ok [11], finish := .ok [12],
    offerFrame := .ok (.b64 (List.replicate 24 0)),
    answer := .ok (.desc "answer" "s"), answerNonce := List.replicate 24 1,
    writeAnswerErr := none, setRemoteErr := none, setLocalErr := none }

/-- newEnvBadClose is a finishNew environment whose answer read fails with a
websocket close error carrying status CloseBadKey. -/
def newEnvBadClose : NewEnv :=
  { msgA := .ok [1], exchange := .ok ([2], [5]), writeMsgBErr := none,
    offer := .ok (.desc "offer" "o"), offerNonce := List.replicate 24 4,
    writeOfferErr := none, answerFrame := .error (.wsClose CloseBadKey),
    setLocalErr := none, setRemoteErr := none }

/-- dialEnvTimeout is a Dial environment whose handshake succeeds (join side)
but whose candidate channels never close. -/
def dialEnvTimeout : DialEnv := ⟨newEnvOk, joinEnvOk, none⟩

/-- ddcEnvSuccess is a DialDataChannel environment for a fully successful run
on the new side: the datachannel opens after one second. -/
def ddcEnvSuccess : DDCEnv :=
  { pcErr := none, createDCErr := none, newEnv := newEnvOk, joinEnv := joinEnvOk,
    openedAt := some 1, detachErr := none }

/-- dialEnvDone is a Dial environment for a fully successful run: the
candidate channels close after one second. -/
def dialEnvDone : DialEnv := ⟨newEnvOk, joinEnvOk, some 1⟩

/-! ## Supporting lemmas about the library models and codecs -/

theorem xorStream_xorStream (key nonce : Bytes) (i : Nat) (m : Bytes) :
    xorStream key nonce i (xorStream key nonce i m) = m := by
  induction m generalizing i with
  | nil => rfl
  | cons b bs ih => simp [xorStream, Nat.xor_cancel_right, ih]

theorem length_xorStream (key nonce : Bytes) (i : Nat) (m : Bytes) :
    (xorStream key nonce i m).length = m.length := by
  induction m generalizing i with
  | nil => rfl
  | cons b bs ih => simp [xorStream, ih]

theorem length_macTag (key nonce ct : Bytes) : (macTag key nonce ct).length = 16 := by
  simp [macTag]

theorem secretboxOpen_seal (key nonce m : Bytes) :
    secretboxOpen key nonce (secretboxSeal key nonce m) = some m := by
  have h16 : (macTag key nonce (xorStream key nonce 0 m)).length = 16 :=
    length_macTag key nonce (xorStream key nonce 0 m)
  unfold secretboxOpen secretboxSeal
  rw [List.take_left' h16, List.drop_left' h16]
  simp [h16, xorStream_xorStream]

theorem length_secretboxSeal (key nonce m : Bytes) :
    (secretboxSeal key nonce m).length = 16 + m.length := by
  simp [secretboxSeal, length_macTag, length_xorStream]

theorem map_ofNat_toNat (l : List Char) : (l.map Char.toNat).map Char.ofNat = l := by
  induction l with
  | nil => rfl
  | cons c cs ih => simp [Char.ofNat_toNat, ih]

theorem decStr_encStr (s : String) (r : Bytes) : decStr (encStr s ++ r) = some (s, r) := by
  have hlen : (s.data.map Char.toNat).length = s.length := by
    rw [List.length_map]; rfl
  have hle : s.length ≤ (s.data.map Char.toNat ++ r).length := by
    rw [List.length_append, hlen]; omega
  show decStr (s.length :: (s.data.map Char.toNat ++ r)) = some (s, r)
  simp only [decStr]
  rw [if_pos hle, List.take_left' hlen, List.drop_left' hlen, map_ofNat_toNat]

theorem jsonUnmarshal_marshal (p : Payload) : jsonUnmarshal (jsonMarshal p) = .ok p := by
  cases p with
  | desc t s =>
    have h1 := decStr_encStr t (encStr s)
    have h2 := decStr_encStr s ([] : Bytes)
    simp only [List.append_nil] at h2
    simp [jsonMarshal, jsonUnmarshal, h1, h2]
  | cand c m i =>
    have h1 := decStr_encStr c (encStr m ++ [i])
    have h2 := decStr_encStr m [i]
    simp [jsonMarshal, jsonUnmarshal, h1, h2]

theorem readEncJSON_writeEncJSON (key nonce : Bytes) (v : Payload)
    (h : nonce.length = 24) :
    readEncJSON key (.ok (writeEncJSON key nonce v)) = .ok v := by
  have hnn : ¬ (nonce ++ secretboxSeal key nonce (jsonMarshal v)).length < 24 := by
    rw [List.length_append, h, length_secretboxSeal]; omega
  simp only [readEncJSON, writeEncJSON, encodeBase64, decodeBase64]
  rw [if_neg hnn, List.take_left' h, List.drop_left' h, secretboxOpen_seal]
  simp [jsonUnmarshal_marshal]

theorem length_hkdfBytes (mk salt info : Bytes) (n : Nat) :
    (hkdfBytes mk salt info n).length = n := by
  simp [hkdfBytes]

/-! ## Supporting lemmas about the handshake state machines -/

theorem sentinelCount_closed (cs : List (Option Cand)) :
    sentinelCount (handleLocalCandidates true cs).2 = 0 := by
  induction cs with
  | nil => rfl
  | cons c cs ih =>
    cases c with
    | none =>
      simpa [handleLocalCandidates, handleLocalCandidate, sentinelCount,
        List.filter_append, isSentinel] using ih
    | some c' =>
      simpa [handleLocalCandidates, handleLocalCandidate, sentinelCount,
        List.filter_append, isSentinel] using ih

theorem sentinelCount_open (cs : List (Option Cand)) :
    sentinelCount (handleLocalCandidates false cs).2 = if none ∈ cs then 1 else 0 := by
  induction cs with
  | nil => rfl
  | cons c cs ih =>
    cases c with
    | none =>
      have h0 := sentinelCount_closed cs
      simp only [sentinelCount] at h0 ⊢
      simp [handleLocalCandidates, handleLocalCandidate, List.filter_append, isSentinel, h0]
    | some c' =>
      have ih' := ih
      simp only [sentinelCount] at ih' ⊢
      simp [handleLocalCandidates, handleLocalCandidate, List.filter_append, isSentinel, ih']

theorem handleRemoteCandidates_sentinel (key : Bytes) (pre : List (Except GoErr Frame))
    (sf : Except GoErr Frame) (post : List (Except GoErr Frame))
    (hpre : ∀ f ∈ pre, ∃ p, readEncJSON key f = .ok p ∧ candidateField p ≠ "")
    (hsf : ∃ p, readEncJSON key sf = .ok p ∧ candidateField p = "") :
    (handleRemoteCandidates key (pre ++ sf :: post)).2 = .sentinel ∧
    (handleRemoteCandidates key (pre ++ sf :: post)).1.length = pre.length := by
  induction pre with
  | nil =>
    obtain ⟨p, hp, hc⟩ := hsf
    simp [handleRemoteCandidates, hp, hc]
  | cons f fs ih =>
    obtain ⟨p, hp, hc⟩ := hpre f (by simp)
    have hrest := ih (fun g hg => hpre g (by simp [hg]))
    simp [handleRemoteCandidates, hp, hc, hrest.1, hrest.2]

theorem finishNew_result_ne (env : NewEnv) :
    (finishNew env).result ≠ .panicked dialTwiceMsg := by
  simp only [finishNew]
  repeat' split
  all_goals simp [sliceMsg, dialTwiceMsg]

theorem finishJoin_result_ne (env : JoinEnv) :
    (finishJoin env).result ≠ .panicked dialTwiceMsg := by
  simp only [finishJoin]
  repeat' split
  all_goals simp [sliceMsg, dialTwiceMsg]

theorem dialFinish_result_ne (side : Nat) (env : DialEnv) :
    (dialFinish side env).result ≠ .panicked dialTwiceMsg := by
  unfold dialFinish
  split
  · exact finishNew_result_ne env.newEnv
  · split
    · exact finishJoin_result_ne env.joinEnv
    · simp

theorem finishNew_sideSet (env : NewEnv) : (finishNew env).sideSet = some sideNone := by
  simp only [finishNew]
  repeat' split
  all_goals rfl

theorem finishJoin_sideSet (env : JoinEnv) : (finishJoin env).sideSet = none := by
  simp only [finishJoin]
  repeat' split
  all_goals rfl

theorem Dial_sideAfter (side : Nat) (env : DialEnv) (hs : ¬ side = sideNone) :
    (Dial side env).sideAfter = ((dialFinish side env).sideSet).getD side := by
  simp only [Dial, if_neg hs]
  repeat' split
  all_goals rfl

theorem Dial_result_of_ok (side : Nat) (env : DialEnv) (hs : ¬ side = sideNone)
    (hfin : (dialFinish side env).result = .ok) (ht : selectTimedOut env.doneAt = true) :
    (Dial side env).result = .err .timedOut ∧
    (Action.wsClose StatusNormalClosure "timed out") ∈ (Dial side env).trace := by
  simp only [Dial, if_neg hs, hfin, ht]
  simp

theorem finishNew_newEnvOk_run :
    (finishNew newEnvOk).result = .ok ∧
    (finishNew newEnvOk).trace =
      [.readPake, .keySet, .writeB64 [2], .registerCandidateCallback,
       .writeSealed (writeEncJSON (hkdfBytes [5] [] [] 32) (List.replicate 24 4)
         (.desc "offer" "o")), .readSealed, .spawnRemoteCandidates] := by
  have h := readEncJSON_writeEncJSON (hkdfBytes [5] [] [] 32) (List.replicate 24 3)
    (.desc "answer" "x") (by simp)
  simp only [List.replicate] at h
  constructor <;> simp [finishNew, newEnvOk, keyOk, List.replicate, h]

theorem finishJoin_joinEnvOk_ok : (finishJoin joinEnvOk).result = .ok := by
  have h := readEncJSON_writeEncJSON (hkdfBytes [5] [] [] 32) (List.replicate 24 4)
    (.desc "offer" "o") (by simp)
  simp only [List.replicate] at h
  simp [finishJoin, joinEnvOk, keyOk, List.replicate, h]

theorem ddc_success_run :
    (DialDataChannel sideNew ddcEnvSuccess).result = .ok ∧
    ((DialDataChannel sideNew ddcEnvSuccess).trace.filter isWsClose) =
      [.wsClose StatusNormalClosure "done"] := by
  have hr := finishNew_newEnvOk_run
  constructor <;>
    simp [DialDataChannel, ddcEnvSuccess, dialFinish, sideNew, sideNone, selectTimedOut,
      dialTimeoutSeconds, hr.1, hr.2, isWsClose, List.filter_append]

theorem finishNew_no_close (env : NewEnv) :
    (finishNew env).trace.filter isWsClose = [] := by
  simp only [finishNew]
  repeat' split
  all_goals rfl

theorem finishJoin_ok_no_close (env : JoinEnv) (h : (finishJoin env).result = .ok) :
    (finishJoin env).trace.filter isWsClose = [] := by
  revert h
  simp only [finishJoin]
  repeat' split
  all_goals intro h
  all_goals first | rfl | simp_all

theorem dialFinish_ok_no_close (side : Nat) (env : DialEnv)
    (h : (dialFinish side env).result = .ok) :
    (dialFinish side env).trace.filter isWsClose = [] := by
  by_cases h1 : side = sideNew
  · simp only [dialFinish, if_pos h1]
    exact finishNew_no_close env.newEnv
  · by_cases h2 : side = sideJoin
    · simp only [dialFinish, if_neg h1, if_pos h2] at h ⊢
      exact finishJoin_ok_no_close env.joinEnv h
    · simp only [dialFinish, if_neg h1, if_neg h2]
      rfl

theorem Dial_ok_close (side : Nat) (env : DialEnv) (hs : side ≠ sideNone)
    (h : (Dial side env).result = .ok) :
    (Dial side env).trace.filter isWsClose = [.wsClose StatusNormalClosure "done"] := by
  have htr : (Dial side env).trace =
      (dialFinish side env).trace ++ [.wsClose StatusNormalClosure "done"] ∧
      (dialFinish side env).result = .ok := by
    revert h
    simp only [Dial, if_neg hs]
    repeat' split
    all_goals intro h
    all_goals simp_all
  rw [htr.1, List.filter_append, dialFinish_ok_no_close side env htr.2]
  rfl

theorem DialDataChannel_ok_close (side : Nat) (env : DDCEnv) (hs : side ≠ sideNone)
    (h : (DialDataChannel side env).result = .ok) :
    (DialDataChannel side env).trace.filter isWsClose =
      [.wsClose StatusNormalClosure "done"] := by
  have htr : (DialDataChannel side env).trace =
      (dialFinish side ⟨env.newEnv, env.joinEnv, none⟩).trace ++
        [.wsClose StatusNormalClosure "done"] ∧
      (dialFinish side ⟨env.newEnv, env.joinEnv, none⟩).result = .ok := by
    revert h
    simp only [DialDataChannel, if_neg hs]
    repeat' split
    all_goals intro h
    all_goals simp_all
  rw [htr.1, List.filter_append, dialFinish_ok_no_close side _ htr.2]
  rfl

theorem dial_done_ok : (Dial sideJoin dialEnvDone).result = .ok := by
  have h := finishJoin_joinEnvOk_ok
  simp [Dial, dialEnvDone, dialFinish, sideJoin, sideNew, sideNone, selectTimedOut,
    dialTimeoutSeconds, h]

/-! ## The claims -/

/-- C1 counterexample: a finishJoin run whose sealed offer fails to open
(readEncJSON returns ErrBadKey) closes the socket with CloseBadKey and returns
ErrBadKey, but writes no sealed frame at all — in particular it does not send
the sealed "bye" farewell the claim asserts. -/
theorem finishJoin_open_fail_no_bye_cex :
    readEncJSON (hkdfBytes [12] [] [] 32) joinEnvBadKey.offerFrame = .err .badKey ∧
    (finishJoin joinEnvBadKey).result = .err .badKey ∧
    (Action.wsClose CloseBadKey "bad key") ∈ (finishJoin joinEnvBadKey).trace ∧
    (finishJoin joinEnvBadKey).trace.all (fun a => !(isWriteSealed a)) = true := by
  decide

/-- C1 (amended): on an open failure while reading the sealed offer, the Go
joiner closes the rendezvous socket with CloseBadKey and returns ErrBadKey
without sending any sealed frame (no "bye" farewell); the Go initiator,
observing a websocket close with status CloseBadKey while reading the sealed
answer, returns ErrBadKey distinctly from generic errors; only the JS client
sends a sealed "bye" before closing with 4005 on a failed open. -/
theorem badKey_close_behaviour
    (jenv : JoinEnv) (a b mk : Bytes)
    (h1 : jenv.start = .ok a) (h2 : jenv.writeMsgAErr = none) (h3 : jenv.msgB = .ok b)
    (h4 : jenv.finish = .ok mk)
    (h5 : readEncJSON (hkdfBytes mk [] [] 32) jenv.offerFrame = .err .badKey)
    (nenv : NewEnv) (a2 msgB mk2 : Bytes) (off : Payload)
    (g1 : nenv.msgA = .ok a2) (g2 : nenv.exchange = .ok (msgB, mk2))
    (g3 : nenv.writeMsgBErr = none) (g4 : nenv.offer = .ok off) (g5 : nenv.writeOfferErr = none)
    (g6 : nenv.answerFrame = .error (.wsClose CloseBadKey)) :
    (finishJoin jenv).result = .err .badKey ∧
    (Action.wsClose CloseBadKey "bad key") ∈ (finishJoin jenv).trace ∧
    (finishJoin jenv).trace.all (fun x => !(isWriteSealed x)) = true ∧
    (finishNew nenv).result = .err .badKey ∧
    (∀ key nonce : Bytes, jsOnMessageWaitOffer key nonce none =
      [.jsFail "bad key", .jsSend (jsSeal key nonce byeBytes), .jsClose CloseBadKey]) := by
  refine ⟨?_, ?_, ?_, ?_, fun key nonce => rfl⟩
  · simp [finishJoin, h1, h2, h3, h4, h5]
  · simp [finishJoin, h1, h2, h3, h4, h5]
  · simp [finishJoin, h1, h2, h3, h4, h5, isWriteSealed]
  · simp [finishNew, g1, g2, g3, g4, g5, g6, readEncJSON, closeStatus, CloseBadKey]

/-- C1 witness: the amended theorem applied to the concrete bad-key join
environment and the concrete close-4005 initiator environment. -/
theorem badKey_close_behaviour_witness :
    (finishJoin joinEnvBadKey).result = .err .badKey ∧
    (finishNew newEnvBadClose).result = .err .badKey :=
  ⟨(badKey_close_behaviour joinEnvBadKey [10] [11] [12] rfl rfl rfl rfl (by decide)
      newEnvBadClose [1] [2] [5] (.desc "offer" "o") rfl rfl rfl rfl rfl rfl).1,
   (badKey_close_behaviour joinEnvBadKey [10] [11] [12] rfl rfl rfl rfl (by decide)
      newEnvBadClose [1] [2] [5] (.desc "offer" "o") rfl rfl rfl rfl rfl rfl).2.2.2.1⟩

/-- C2: readEncJSON panics (slice bounds out of range on encrypted-slice
indexing) on every frame whose decoded payload is shorter than 24 bytes — it
does not return ErrBadKey there, contradicting the claim that nonce extraction
is total; for frames of at least 24 decoded bytes on which secretbox.Open
fails, it does return ErrBadKey. -/
theorem readEncJSON_short_frame (key : Bytes) :
    (∀ p : Bytes, p.length < 24 → readEncJSON key (.ok (.b64 p)) = .panicked) ∧
    readEncJSON key (.ok (.b64 [])) = .panicked ∧
    (∀ p : Bytes, 24 ≤ p.length → secretboxOpen key (p.take 24) (p.drop 24) = none →
      readEncJSON key (.ok (.b64 p)) = .err .badKey) := by
  refine ⟨?_, ?_, ?_⟩
  · intro p hp
    simp [readEncJSON, decodeBase64, hp]
  · simp [readEncJSON, decodeBase64]
  · intro p hp hopen
    simp [readEncJSON, decodeBase64, Nat.not_lt.mpr hp, hopen]

/-- C2 witness: the empty frame (decoded payload of length 0) panics, and a
24-byte frame with an unverifiable (empty) box yields ErrBadKey. -/
theorem readEncJSON_short_frame_witness :
    readEncJSON (List.replicate 32 0) (.ok (.b64 [])) = .panicked ∧
    readEncJSON (List.replicate 32 0) (.ok (.b64 (List.replicate 24 0))) = .err .badKey :=
  ⟨(readEncJSON_short_frame (List.replicate 32 0)).1 [] (by decide),
   (readEncJSON_short_frame (List.replicate 32 0)).2.2 (List.replicate 24 0)
     (by decide) (by decide)⟩

/-- C3: the frame writeEncJSON produces is the base64url encoding of the
24-byte nonce followed by the secretbox of the JSON payload under the key and
that nonce, and readEncJSON under the same key recovers a structurally equal
value. -/
theorem seal_open_roundtrip (key nonce : Bytes) (v : Payload) (h : nonce.length = 24) :
    writeEncJSON key nonce v = encodeBase64 (nonce ++ secretboxSeal key nonce (jsonMarshal v)) ∧
    readEncJSON key (.ok (writeEncJSON key nonce v)) = .ok v :=
  ⟨rfl, readEncJSON_writeEncJSON key nonce v h⟩

/-- C3 witness: the round trip at a concrete key, nonce and candidate value. -/
theorem seal_open_roundtrip_witness :
    readEncJSON [7] (.ok (writeEncJSON [7] (List.replicate 24 9) (.cand "c" "m" 1))) =
      .ok (.cand "c" "m" 1) :=
  (seal_open_roundtrip [7] (List.replicate 24 9) (.cand "c" "m" 1) (by decide)).2

/-- C4: both finishNew and finishJoin set the session key to exactly the first
32 bytes of HKDF-SHA256 of the PAKE master key with empty salt and empty info,
so whenever the two sides obtain equal master keys their session keys are
byte-identical (and 32 bytes long). -/
theorem session_key_hkdf (nenv : NewEnv) (jenv : JoinEnv) (a b msgB mk : Bytes)
    (h1 : nenv.msgA = .ok a) (h2 : nenv.exchange = .ok (msgB, mk))
    (h3 : jenv.start = .ok b) (h4 : jenv.writeMsgAErr = none)
    (h5 : ∃ m, jenv.msgB = .ok m) (h6 : jenv.finish = .ok mk) :
    (finishNew nenv).key = some (hkdfBytes mk [] [] 32) ∧
    (finishJoin jenv).key = some (hkdfBytes mk [] [] 32) ∧
    (finishNew nenv).key = (finishJoin jenv).key ∧
    (hkdfBytes mk [] [] 32).length = 32 := by
  obtain ⟨m, h5⟩ := h5
  have hN : (finishNew nenv).key = some (hkdfBytes mk [] [] 32) := by
    simp only [finishNew, h1, h2]
    repeat' split
    all_goals rfl
  have hJ : (finishJoin jenv).key = some (hkdfBytes mk [] [] 32) := by
    simp only [finishJoin, h3, h4, h5, h6]
    repeat' split
    all_goals rfl
  exact ⟨hN, hJ, by rw [hN, hJ], length_hkdfBytes mk [] [] 32⟩

/-- C4 witness: the key equality at the concrete successful environments, which
share the master key [5]. -/
theorem session_key_hkdf_witness :
    (finishNew newEnvOk).key = (finishJoin joinEnvOk).key :=
  (session_key_hkdf newEnvOk joinEnvOk [1] [1] [2] [5] rfl rfl rfl rfl ⟨[2], rfl⟩ rfl).2.2.1

/-- C5: in every run of either handshake function, the key is set before any
sealed frame is read or written and before the local-candidate callback is
registered; and the JS onicecandidate handler sends nothing when the key is
absent. -/
theorem no_sealed_io_before_key :
    (∀ env : NewEnv, keyBeforeSealed (finishNew env).trace = true) ∧
    (∀ env : JoinEnv, keyBeforeSealed (finishJoin env).trace = true) ∧
    (∀ (nonce : Bytes) (c : Option Cand), jsOnIceCandidate none nonce c = []) := by
  refine ⟨?_, ?_, ?_⟩
  · intro env
    simp only [finishNew]
    repeat' split
    all_goals rfl
  · intro env
    simp only [finishJoin]
    repeat' split
    all_goals rfl
  · intro nonce c
    cases c with
    | none => rfl
    | some c1 => simp [jsOnIceCandidate]

/-- C6 counterexample: unwrapWebsocketErr passes close code 4004 (peer hung
up) and close code 4005 (bad key) through as the untranslated websocket close
error rather than translating them, and the JS onclose handler ignores 4004
and reports 4005 with the generic closed-session message. -/
theorem close_code_passthrough_cex :
    unwrapWebsocketErr (.wsClose ClosePeerHungUp) = .wsClose ClosePeerHungUp ∧
    unwrapWebsocketErr (.wsClose CloseBadKey) = .wsClose CloseBadKey ∧
    jsOnClose ClosePeerHungUp "" = none ∧
    jsOnClose CloseBadKey "bad key" = some "websocket session closed: bad key (4005)" := by
  refine ⟨?_, ?_, ?_, ?_⟩ <;> decide

/-- C6 (amended): unwrapWebsocketErr translates CloseWrongProto to
ErrBadVersion, CloseNoSuchSlot to ErrNoSuchSlot and CloseSlotTimedOut to
ErrTimedOut, and passes 4004 and 4005 through unchanged; 4005 is translated to
ErrBadKey only by finishNew at its answer read; the JS client maps 4000-4003 to
their specific messages, ignores 4004, and reports 4005 generically. -/
theorem close_code_translation :
    unwrapWebsocketErr (.wsClose CloseWrongProto) = .badVersion ∧
    unwrapWebsocketErr (.wsClose CloseNoSuchSlot) = .noSuchSlot ∧
    unwrapWebsocketErr (.wsClose CloseSlotTimedOut) = .timedOut ∧
    unwrapWebsocketErr (.wsClose ClosePeerHungUp) = .wsClose ClosePeerHungUp ∧
    unwrapWebsocketErr (.wsClose CloseBadKey) = .wsClose CloseBadKey ∧
    (finishNew newEnvBadClose).result = .err .badKey ∧
    jsOnClose CloseNoSuchSlot "" = some "no such slot" ∧
    jsOnClose CloseSlotTimedOut "" = some "timed out" ∧
    jsOnClose CloseNoMoreSlots "" = some "could not get slot" ∧
    jsOnClose CloseWrongProto "" = some "wrong protocol version, must update" ∧
    jsOnClose ClosePeerHungUp "" = none := by
  refine ⟨?_, ?_, ?_, ?_, ?_, ?_, ?_, ?_, ?_, ?_, ?_⟩ <;> decide

/-- C7: when the handshake part succeeds but the post-handshake select hits
the 30-second timer (in particular when the completion never happens, as with
no counterpart), Dial and DialDataChannel close the rendezvous websocket and
return ErrTimedOut. -/
theorem dial_timeout_errTimedOut :
    (∀ (side : Nat) (env : DialEnv), side ≠ sideNone →
      (dialFinish side env).result = .ok → selectTimedOut env.doneAt = true →
      (Dial side env).result = .err .timedOut ∧
      (Action.wsClose StatusNormalClosure "timed out") ∈ (Dial side env).trace) ∧
    (∀ (side : Nat) (env : DDCEnv), side ≠ sideNone →
      env.pcErr = none → env.createDCErr = none →
      (dialFinish side ⟨env.newEnv, env.joinEnv, none⟩).result = .ok →
      selectTimedOut env.openedAt = true →
      (DialDataChannel side env).result = .err .timedOut ∧
      (Action.wsClose StatusNormalClosure "timed out") ∈ (DialDataChannel side env).trace) ∧
    selectTimedOut none = true := by
  refine ⟨?_, ?_, rfl⟩
  · intro side env hs hfin ht
    exact Dial_result_of_ok side env hs hfin ht
  · intro side env hs h1 h2 hfin ht
    simp only [DialDataChannel, if_neg hs, h1, h2, hfin, ht]
    simp

/-- C7 witness: a successful join-side handshake whose candidate channels never
close times out. -/
theorem dial_timeout_errTimedOut_witness :
    (Dial sideJoin dialEnvTimeout).result = .err .timedOut :=
  ((dial_timeout_errTimedOut).1 sideJoin dialEnvTimeout (by decide)
    (by simpa [dialFinish, dialEnvTimeout, sideJoin, sideNew] using finishJoin_joinEnvOk_ok)
    rfl).1

/-- C8 counterexample: a fully successful Go DialDataChannel run closes the
signalling socket with the normal-closure status 1000 and reason "done" — not
with any of the 4006/4007/4008 candidate-type statuses the claim asserts for
every completing run of the client. -/
theorem go_success_closes_normal_cex :
    (DialDataChannel sideNew ddcEnvSuccess).result = .ok ∧
    ((DialDataChannel sideNew ddcEnvSuccess).trace.filter isWsClose) =
      [.wsClose StatusNormalClosure "done"] ∧
    StatusNormalClosure ≠ closeWebRTCSuccess ∧
    StatusNormalClosure ≠ closeWebRTCSuccessDirect ∧
    StatusNormalClosure ≠ closeWebRTCSuccessRelay :=
  ⟨ddc_success_run.1, ddc_success_run.2, by decide, by decide, by decide⟩

/-- C8 (amended): the JS client, on a connected peer connection, closes the
signalling socket with 4007 for host/srflx/prflx candidate pairs, 4008 for
relay, and 4006 otherwise (4009 on failure); the Go client closes the
signalling socket with the normal-closure status 1000 and reason "done" on
every successful run of Dial and of DialDataChannel, with no candidate-type
distinction. -/
theorem success_close_codes :
    jsCloseCode "connected" "host" = some closeWebRTCSuccessDirect ∧
    jsCloseCode "connected" "srflx" = some closeWebRTCSuccessDirect ∧
    jsCloseCode "connected" "prflx" = some closeWebRTCSuccessDirect ∧
    jsCloseCode "connected" "relay" = some closeWebRTCSuccessRelay ∧
    (∀ ct : String, ct ≠ "host" → ct ≠ "srflx" → ct ≠ "prflx" → ct ≠ "relay" →
      jsCloseCode "connected" ct = some closeWebRTCSuccess) ∧
    jsCloseCode "failed" "" = some closeWebRTCFailed ∧
    ((DialDataChannel sideNew ddcEnvSuccess).trace.filter isWsClose) =
      [.wsClose StatusNormalClosure "done"] ∧
    (∀ (side : Nat) (env : DialEnv), side ≠ sideNone → (Dial side env).result = .ok →
      (Dial side env).trace.filter isWsClose = [.wsClose StatusNormalClosure "done"]) ∧
    (∀ (side : Nat) (env : DDCEnv), side ≠ sideNone →
      (DialDataChannel side env).result = .ok →
      (DialDataChannel side env).trace.filter isWsClose =
        [.wsClose StatusNormalClosure "done"]) := by
  refine ⟨by decide, by decide, by decide, by decide, ?_, by decide, ddc_success_run.2,
    Dial_ok_close, DialDataChannel_ok_close⟩
  intro ct hh hs hp hr
  simp [jsCloseCode, hh, hs, hp, hr]

/-- C8 witness: the amended theorem's undetermined-type conjunct at a concrete
candidate type, and its universal Go conjuncts at concrete successful Dial and
DialDataChannel runs. -/
theorem success_close_codes_witness :
    jsCloseCode "connected" "unknown" = some closeWebRTCSuccess ∧
    (Dial sideJoin dialEnvDone).trace.filter isWsClose =
      [.wsClose StatusNormalClosure "done"] ∧
    (DialDataChannel sideNew ddcEnvSuccess).trace.filter isWsClose =
      [.wsClose StatusNormalClosure "done"] :=
  ⟨(success_close_codes).2.2.2.2.1 "unknown" (by decide) (by decide) (by decide) (by decide),
   (success_close_codes).2.2.2.2.2.2.2.1 sideJoin dialEnvDone (by decide) dial_done_ok,
   (success_close_codes).2.2.2.2.2.2.2.2 sideNew ddcEnvSuccess (by decide) ddc_success_run.1⟩

/-- C9: starting from an open local-candidate channel, the callback writes
exactly one empty-candidate sentinel when the gatherer reports completion at
least once (and none otherwise), however many times the completion callback
fires; and on receiving a sealed candidate with an empty candidate field,
handleRemoteCandidates stops reading (later frames are untouched) and returns
the sentinel outcome, surfacing no error. -/
theorem candidate_trickle_termination :
    (∀ inputs : List (Option Cand),
      sentinelCount (handleLocalCandidates false inputs).2 =
        if none ∈ inputs then 1 else 0) ∧
    (∀ (key : Bytes) (pre : List (Except GoErr Frame)) (sf : Except GoErr Frame)
        (post : List (Except GoErr Frame)),
      (∀ f ∈ pre, ∃ p, readEncJSON key f = .ok p ∧ candidateField p ≠ "") →
      (∃ p, readEncJSON key sf = .ok p ∧ candidateField p = "") →
      (handleRemoteCandidates key (pre ++ sf :: post)).2 = .sentinel ∧
      (handleRemoteCandidates key (pre ++ sf :: post)).1.length = pre.length) :=
  ⟨sentinelCount_open, handleRemoteCandidates_sentinel⟩

/-- C9 witness: one real candidate, then the sentinel, then an unread frame;
the remote loop stops at the sentinel, and the local callback fired twice with
completion writes one sentinel. -/
theorem candidate_trickle_termination_witness :
    (handleRemoteCandidates [7]
      ([.ok (writeEncJSON [7] (List.replicate 24 9) (.cand "c" "m" 1))] ++
        (.ok (writeEncJSON [7] (List.replicate 24 9) (.cand "" "" 0))) ::
        [.ok .malformed])).2 = .sentinel ∧
    sentinelCount (handleLocalCandidates false [none, none]).2 = 1 := by
  refine ⟨((candidate_trickle_termination).2 [7]
    [.ok (writeEncJSON [7] (List.replicate 24 9) (.cand "c" "m" 1))]
    (.ok (writeEncJSON [7] (List.replicate 24 9) (.cand "" "" 0)))
    [.ok .malformed] ?_ ?_).1, ?_⟩
  · intro f hf
    simp only [List.mem_singleton] at hf
    subst hf
    exact ⟨.cand "c" "m" 1,
      readEncJSON_writeEncJSON [7] (List.replicate 24 9) (.cand "c" "m" 1) (by simp),
      by decide⟩
  · exact ⟨.cand "" "" 0,
      readEncJSON_writeEncJSON [7] (List.replicate 24 9) (.cand "" "" 0) (by simp), rfl⟩
  · have := (candidate_trickle_termination).1 [none, none]
    simpa using this

/-- C10: Dial and DialDataChannel raise the dial-twice guard panic exactly when
the side field is sideNone; finishNew stores sideNone at its start while
finishJoin never writes the side, so after a completed call on a wormhole
created by New a second call panics, while on one created by Join it does
not. -/
theorem dial_twice_guard :
    (∀ (side : Nat) (env : DialEnv),
      ((Dial side env).result = .panicked dialTwiceMsg ↔ side = sideNone)) ∧
    (∀ (side : Nat) (env : DDCEnv),
      ((DialDataChannel side env).result = .panicked dialTwiceMsg ↔ side = sideNone)) ∧
    (∀ env : NewEnv, (finishNew env).sideSet = some sideNone) ∧
    (∀ env : JoinEnv, (finishJoin env).sideSet = none) ∧
    (∀ env : DialEnv, (Dial sideNew env).sideAfter = sideNone) ∧
    (∀ env : DialEnv, (Dial sideJoin env).sideAfter = sideJoin) ∧
    (∀ env env2 : DialEnv,
      (Dial (Dial sideNew env).sideAfter env2).result = .panicked dialTwiceMsg) ∧
    (∀ env env2 : DialEnv,
      (Dial (Dial sideJoin env).sideAfter env2).result ≠ .panicked dialTwiceMsg) := by
  have hDial : ∀ (side : Nat) (env : DialEnv), side ≠ sideNone →
      (Dial side env).result ≠ .panicked dialTwiceMsg := by
    intro side env hs
    have h := dialFinish_result_ne side env
    simp only [Dial, if_neg hs]
    split
    · simp
    · intro hc
      injection hc with hm
      rename_i m heq
      exact h (by rw [heq, hm])
    · split
      · simp
      · simp
  have hNewSide : ∀ env : DialEnv, (Dial sideNew env).sideAfter = sideNone := by
    intro env
    rw [Dial_sideAfter sideNew env (by decide)]
    simp [dialFinish, finishNew_sideSet]
  have hJoinSide : ∀ env : DialEnv, (Dial sideJoin env).sideAfter = sideJoin := by
    intro env
    rw [Dial_sideAfter sideJoin env (by decide)]
    simp [dialFinish, sideJoin, sideNew, finishJoin_sideSet]
  refine ⟨?_, ?_, finishNew_sideSet, finishJoin_sideSet, hNewSide, hJoinSide, ?_, ?_⟩
  · intro side env
    constructor
    · intro h
      by_contra hs
      exact hDial side env hs h
    · intro hs
      simp [Dial, hs]
  · intro side env
    constructor
    · intro h
      by_contra hs
      have hfin := dialFinish_result_ne side ⟨env.newEnv, env.joinEnv, none⟩
      revert h
      simp only [DialDataChannel, if_neg hs]
      split
      · simp
      · split
        · simp
        · split
          · simp
          · intro hc
            injection hc with hm
            rename_i m heq
            exact hfin (by rw [heq, hm])
          · split
            · simp
            · split
              · simp
              · simp
    · intro hs
      simp [DialDataChannel, hs]
  · intro env env2
    rw [hNewSide env]
    simp [Dial]
  · intro env env2
    rw [hJoinSide env]
    exact hDial sideJoin env2 (by decide)

end WW
